import Mathlib

/-!
# Verification of the travel-api trip-lifecycle orchestrator

Shallow embedding of `internal/api/api.go` (handlers `PostTrips`,
`GetTripsTripIDConfirm`, `PostTripsTripIDInvites`,
`PatchParticipantsParticipantIDConfirm`, `PutTripsTripID`) together with the
persistence layer it calls.  The `pgstore` package itself (sqlc-generated SQL)
is not part of the provided sources, so its operations are modelled from the
spec's external-interface section; the handler control flow is translated
directly from `api.go`.

Handlers are modelled as pure functions from a database state (plus failure
oracles for the infrastructure calls and outcome oracles for the detached
mailer calls) to a response, a successor state, and a trace of persistence /
notification-dispatch events, in the order the sequential Go code performs
or launches them.
-/

namespace TravelApi

/-- Go `uuid.UUID`, abstracted to a natural number.  The zero value of the Go
type (`uuid.Nil`, the value a composite literal leaves in an unmentioned
field) is `0`. -/
abbrev UUID := Nat

/-- `uuid.Nil`, the zero value of `uuid.UUID`. -/
def nilUUID : UUID := 0

/-- Row of the `trips` table (migration in the sources: id, destination,
owner_email, owner_name, is_confirmed, starts_at, ends_at).  Timestamps are
abstracted to integers. -/
structure Trip where
  id : UUID
  destination : String
  ownerEmail : String
  ownerName : String
  isConfirmed : Bool
  startsAt : Int
  endsAt : Int
deriving Repr, DecidableEq

/-- Row of the `participants` table: identity, owning trip reference, email,
confirmation flag (spec §3). -/
structure Participant where
  id : UUID
  tripId : UUID
  email : String
  isConfirmed : Bool
deriving Repr, DecidableEq

/-- The persistent database state seen by the orchestrator: the trip and
participant tables.  (Activities and links have no orchestration logic and no
claim mentions them, so they are omitted from the state.) -/
structure Store where
  trips : List Trip
  participants : List Participant
deriving Repr, DecidableEq

/-- `pgstore.ConfirmTripParams`, the parameter struct of the sqlc-generated
`ConfirmTrip` query.  In `api.go` line 271 the struct literal mentions only
`IsConfirmed`, so `id` keeps the Go zero value `nilUUID`. -/
structure ConfirmTripParams where
  isConfirmed : Bool
  id : UUID
deriving Repr, DecidableEq

/-- `pgstore.UpdateTripParams` (fields as used in `PutTripsTripID`). -/
structure UpdateTripParams where
  destination : String
  startsAt : Int
  endsAt : Int
  id : UUID
  isConfirmed : Bool
deriving Repr, DecidableEq

/-- `pgstore.InviteParticipantsToTripParams` (fields as used in
`PostTripsTripIDInvites`). -/
structure InviteParticipantsToTripParams where
  tripId : UUID
  email : String
deriving Repr, DecidableEq

/-- `spec.CreateTripRequest`: destination, owner name, owner email, start/end
timestamps, optional additional participant emails (spec §4.1). -/
structure CreateTripRequest where
  destination : String
  ownerName : String
  ownerEmail : String
  startsAt : Int
  endsAt : Int
  emailsToInvite : List String
deriving Repr, DecidableEq

/-- `spec.UpdateTripRequest`: destination and new start/end timestamps, as
read in `PutTripsTripID`. -/
structure UpdateTripRequest where
  destination : String
  startsAt : Int
  endsAt : Int
deriving Repr, DecidableEq

/-- `spec.InviteParticipantRequest`: the single email of the invitee. -/
structure InviteParticipantRequest where
  email : String
deriving Repr, DecidableEq

/-- Modelled from the spec: the email well-formedness check performed by the
request validator (the generated `spec` package with its validate tags is not
under the provided sources).  A well-formed address has exactly one separator
`@` with a non-empty local part before it and a non-empty domain after it. -/
def emailWellFormed (e : String) : Bool :=
  (e.data.count '@' == 1) &&
    !(e.data.head? == some '@') && !(e.data.getLast? == some '@')

/-- Modelled from the spec (§4.1 constraints): the validator for
`CreateTripRequest` — destination non-empty, owner email well-formed, end
timestamp not before start timestamp, each additional email well-formed. -/
def validCreateTrip (b : CreateTripRequest) : Bool :=
  !b.destination.isEmpty && emailWellFormed b.ownerEmail &&
    b.startsAt ≤ b.endsAt && b.emailsToInvite.all emailWellFormed

/-- Modelled from the spec: the validator for `UpdateTripRequest` (same
destination and date-range constraints as creation). -/
def validUpdateTrip (b : UpdateTripRequest) : Bool :=
  !b.destination.isEmpty && b.startsAt ≤ b.endsAt

namespace Store

/-- Modelled from the spec (`listParticipants(tripId) -> Participant[]`):
`pgstore.GetParticipants`, a `SELECT ... WHERE trip_id = $1` returning every
participant row of the trip — the empty list when the trip has none or does
not exist. -/
def getParticipants (st : Store) (tripId : UUID) : List Participant :=
  st.participants.filter (fun p => p.tripId = tripId)

/-- Modelled from the spec (`getParticipant(participantId) -> Participant |
notFoundError`): `pgstore.GetParticipant`; `none` is pgx's `ErrNoRows`. -/
def getParticipant (st : Store) (id : UUID) : Option Participant :=
  st.participants.find? (fun p => p.id = id)

/-- Modelled from the spec (`confirmParticipant(participantId)`):
`pgstore.ConfirmParticipant`, an `UPDATE participants SET is_confirmed = true
WHERE id = $1`. -/
def confirmParticipant (st : Store) (id : UUID) : Store :=
  { st with
    participants := st.participants.map (fun p =>
      if p.id = id then { p with isConfirmed := true } else p) }

/-- Modelled from the spec (`setTripConfirmed(tripId)`): `pgstore.ConfirmTrip`,
an `UPDATE trips SET is_confirmed = $1 WHERE id = $2` keyed by the identity
carried in the params struct. -/
def confirmTrip (st : Store) (p : ConfirmTripParams) : Store :=
  { st with
    trips := st.trips.map (fun t =>
      if t.id = p.id then { t with isConfirmed := p.isConfirmed } else t) }

/-- Modelled from the spec (`getTrip(tripId) -> Trip | notFoundError`):
`pgstore.GetTrip`; `none` is pgx's `ErrNoRows`. -/
def getTrip (st : Store) (id : UUID) : Option Trip :=
  st.trips.find? (fun t => t.id = id)

/-- Modelled from the spec (`updateTrip(tripId, fields)`):
`pgstore.UpdateTrip`, an `UPDATE trips SET ... WHERE id = $n` writing the
fields carried in the params struct, the confirmation flag included. -/
def updateTrip (st : Store) (p : UpdateTripParams) : Store :=
  { st with
    trips := st.trips.map (fun t =>
      if t.id = p.id then
        { t with
          destination := p.destination
          startsAt := p.startsAt
          endsAt := p.endsAt
          isConfirmed := p.isConfirmed }
      else t) }

/-- Modelled from the spec (`addParticipant(tripId, email)`):
`pgstore.InviteParticipantsToTrip`, a batch `INSERT` of one participant row
per params entry, confirmation flag false.  Row identities come from the
database (`gen_random_uuid()`), so they are supplied as the oracle list
`freshIds`. -/
def inviteParticipantsToTrip (st : Store) (freshIds : List UUID)
    (ps : List InviteParticipantsToTripParams) : Store :=
  { st with
    participants := st.participants ++
      (ps.zip freshIds).map (fun q => ⟨q.2, q.1.tripId, q.1.email, false⟩) }

/-- Modelled from the spec (`createTripWithParticipants(trip,
participantEmails[]) -> tripId`): `pgstore.CreateTripTx` atomically persists
one trip row plus one unconfirmed participant row per email, owner included
(spec §4.1).  The database-generated identities are supplied as the oracles
`tripId` and `freshIds`. -/
def createTripTx (st : Store) (tripId : UUID) (freshIds : List UUID)
    (b : CreateTripRequest) : Store :=
  { trips := st.trips ++
      [⟨tripId, b.destination, b.ownerEmail, b.ownerName, false,
        b.startsAt, b.endsAt⟩],
    participants := st.participants ++
      ((b.ownerEmail :: b.emailsToInvite).zip freshIds).map
        (fun q => ⟨q.2, tripId, q.1, false⟩) }

end Store

/-- One observable step of a handler, in program order: a persistence write
that completed, or a notification dispatch handed to a detached task (with
the eventual outcome of that task's mailer call, which the handler never
awaits). -/
inductive Event
  | persistConfirmTrip (p : ConfirmTripParams)
  | persistConfirmParticipant (id : UUID)
  | persistCreateTrip (tripId : UUID)
  | persistInsertParticipant (tripId : UUID) (email : String)
  | persistUpdateTrip (p : UpdateTripParams)
  | dispatchConfirmTripEmailToOwner (tripId : UUID) (mailDelivered : Bool)
  | dispatchInvitation (email : String) (tripId : UUID) (mailDelivered : Bool)
deriving Repr, DecidableEq

/-- Whether an event is a notification dispatch (as opposed to a persistence
write). -/
def Event.isDispatch : Event → Bool
  | .dispatchConfirmTripEmailToOwner _ _ => true
  | .dispatchInvitation _ _ _ => true
  | _ => false

/-- The recipient/trip targets of the invitation dispatches of a trace, in
dispatch order, ignoring whether each detached mailer call later succeeded. -/
def invitationTargets : List Event → List (String × UUID)
  | [] => []
  | .dispatchInvitation em t _ :: rest => (em, t) :: invitationTargets rest
  | .persistConfirmTrip _ :: rest => invitationTargets rest
  | .persistConfirmParticipant _ :: rest => invitationTargets rest
  | .persistCreateTrip _ :: rest => invitationTargets rest
  | .persistInsertParticipant _ _ :: rest => invitationTargets rest
  | .persistUpdateTrip _ :: rest => invitationTargets rest
  | .dispatchConfirmTripEmailToOwner _ _ :: rest => invitationTargets rest

/-- How many notification dispatches a trace contains. -/
def dispatchCount (tr : List Event) : Nat :=
  (tr.filter Event.isDispatch).length

/-- `true` when no dispatch event occurs before the first completed
`persistConfirmTrip` write of the trace (after that write, anything may
follow).  A trace with no such write must contain no dispatch at all. -/
def noDispatchBeforeConfirmPersist : List Event → Bool
  | [] => true
  | .persistConfirmTrip _ :: _ => true
  | e :: rest => !e.isDispatch && noDispatchBeforeConfirmPersist rest

/-- `spec.Response`: the caller-visible outcome.  `api.go` maps every error
to a 400 JSON body whose message distinguishes validation, not-found,
conflict and internal errors; successes are 204 (no content) or 201 (body
with the created identity when the endpoint returns one). -/
inductive Response
  | json400 (msg : String)
  | json204
  | json201 (createdId : Option UUID)
deriving Repr, DecidableEq

/-- What a handler invocation produces: the response, the database state
after the synchronous writes, and the ordered event trace. -/
structure HandlerResult where
  response : Response
  store : Store
  trace : List Event
deriving Repr, DecidableEq

/-- `GET /trips/{tripId}/confirm` (`api.go` `GetTripsTripIDConfirm`): parse
the id, load the participant set, persist the confirmation flag — via
`ConfirmTripParams{IsConfirmed: true}`, whose `id` field the Go literal
leaves at the zero value — then launch one detached invitation mail per
loaded participant.  `tripID = none` models a string `uuid.Parse` rejects;
`getParticipantsFails` / `confirmTripFails` model infrastructure errors of
the two store calls; `mailOk` gives each detached mailer call's eventual
outcome. -/
def GetTripsTripIDConfirm (st : Store) (tripID : Option UUID)
    (getParticipantsFails confirmTripFails : Bool)
    (mailOk : String → UUID → Bool) : HandlerResult :=
  match tripID with
  | none => ⟨.json400 "uuid inválido", st, []⟩
  | some id =>
    if getParticipantsFails then
      ⟨.json400 "algo deu errado, tente novamente", st, []⟩
    else
      let participants := st.getParticipants id
      if confirmTripFails then
        ⟨.json400 "algo deu errado, tente novamente", st, []⟩
      else
        let params : ConfirmTripParams := { isConfirmed := true, id := nilUUID }
        ⟨.json204, st.confirmTrip params,
          .persistConfirmTrip params ::
            participants.map (fun p =>
              .dispatchInvitation p.email id (mailOk p.email id))⟩

/-- `PATCH /participants/{participantId}/confirm` (`api.go`
`PatchParticipantsParticipantIDConfirm`): parse the id, load the participant
(`ErrNoRows` → not-found message), reject an already-confirmed participant
with a conflict message, otherwise persist the flag flip and answer 204.  No
mailer call occurs on any path. -/
def PatchParticipantsParticipantIDConfirm (st : Store)
    (participantID : Option UUID)
    (getParticipantFails confirmParticipantFails : Bool) : HandlerResult :=
  match participantID with
  | none => ⟨.json400 "uuid inválido", st, []⟩
  | some id =>
    if getParticipantFails then
      ⟨.json400 "Algo deu errado, tente novamente.", st, []⟩
    else
      match st.getParticipant id with
      | none => ⟨.json400 "participante não encontrado", st, []⟩
      | some participant =>
        if participant.isConfirmed then
          ⟨.json400 "Participante já confirmado.", st, []⟩
        else if confirmParticipantFails then
          ⟨.json400 "Algo deu errado, tente novamente.", st, []⟩
        else
          ⟨.json204, st.confirmParticipant id, [.persistConfirmParticipant id]⟩

/-- `POST /trips` (`api.go` `PostTrips`): decode the body (`none` models a
body the JSON decoder rejects), validate it, run the transactional create,
then launch one detached "trip created / confirm" mail to the owner and
answer 201 with the new trip identity.  The detached mail outcome `mailOk`
is recorded only in the trace. -/
def PostTrips (st : Store) (body : Option CreateTripRequest)
    (freshTripId : UUID) (freshParticipantIds : List UUID)
    (createTripFails : Bool) (mailOk : Bool) : HandlerResult :=
  match body with
  | none => ⟨.json400 "JSON inválido", st, []⟩
  | some b =>
    if !validCreateTrip b then
      ⟨.json400 "Invalid input", st, []⟩
    else if createTripFails then
      ⟨.json400 "Falha ao criar a viagem, tente novamente.", st, []⟩
    else
      ⟨.json201 (some freshTripId),
        st.createTripTx freshTripId freshParticipantIds b,
        [.persistCreateTrip freshTripId,
         .dispatchConfirmTripEmailToOwner freshTripId mailOk]⟩

/-- `PUT /trips/{tripId}` (`api.go` `PutTripsTripID`): parse the id, load the
trip (`ErrNoRows` → not-found message), decode and validate the body, then
persist the update, writing back the confirmation flag value that was just
read (`IsConfirmed: trip.IsConfirmed`). -/
def PutTripsTripID (st : Store) (tripID : Option UUID)
    (body : Option UpdateTripRequest)
    (getTripFails updateTripFails : Bool) : HandlerResult :=
  match tripID with
  | none => ⟨.json400 "uuid inválido", st, []⟩
  | some id =>
    if getTripFails then
      ⟨.json400 "Algo deu errado, tente novamente", st, []⟩
    else
      match st.getTrip id with
      | none => ⟨.json400 "viagem não encontrada", st, []⟩
      | some trip =>
        match body with
        | none => ⟨.json400 "JSON inválido", st, []⟩
        | some b =>
          if !validUpdateTrip b then
            ⟨.json400 "Invalid input", st, []⟩
          else if updateTripFails then
            ⟨.json400 "Algo deu errado, tente novamente", st, []⟩
          else
            let params : UpdateTripParams :=
              ⟨b.destination, b.startsAt, b.endsAt, id, trip.isConfirmed⟩
            ⟨.json204, st.updateTrip params, [.persistUpdateTrip params]⟩

/-- `POST /trips/{tripId}/invites` (`api.go` `PostTripsTripIDInvites`): parse
the id, decode and validate the body (email must be well-formed), insert a
single participant row for (trip, email) via the batch insert, then launch
one detached invitation mail to that email and answer 201. -/
def PostTripsTripIDInvites (st : Store) (tripID : Option UUID)
    (body : Option InviteParticipantRequest) (freshParticipantId : UUID)
    (inviteFails : Bool) (mailOk : Bool) : HandlerResult :=
  match tripID with
  | none => ⟨.json400 "uuid inválido", st, []⟩
  | some id =>
    match body with
    | none => ⟨.json400 "JSON inválido", st, []⟩
    | some b =>
      if !emailWellFormed b.email then
        ⟨.json400 "Invalid input", st, []⟩
      else if inviteFails then
        ⟨.json400 "Algo deu errado, tente novamente", st, []⟩
      else
        ⟨.json201 none,
          st.inviteParticipantsToTrip [freshParticipantId] [⟨id, b.email⟩],
          [.persistInsertParticipant id b.email,
           .dispatchInvitation b.email id mailOk]⟩

/-! ## Concrete fixtures used by counterexamples and witnesses -/

/-- A concrete unconfirmed trip with a non-nil identity. -/
def tripParis : Trip :=
  ⟨1, "Paris", "a@x.com", "Ana", false, 0, 5⟩

/-- A store holding `tripParis` and two of its unconfirmed participants. -/
def storeParis : Store :=
  { trips := [tripParis],
    participants := [⟨10, 1, "a@x.com", false⟩, ⟨11, 1, "b@x.com", false⟩] }

/-- A second concrete trip, already confirmed. -/
def tripRome : Trip :=
  ⟨2, "Rome", "r@x.com", "Rui", true, 1, 3⟩

/-- A store holding the unconfirmed Paris trip and the confirmed Rome trip. -/
def storeRome : Store :=
  { trips := [tripParis, tripRome], participants := [] }

/-! ## Claims -/

/-- C1: a trip-confirmation request for the well-formed identity `1` of an
existing unconfirmed trip succeeds (204), yet the flag of that trip is still
false afterwards — the handler builds `ConfirmTripParams` without the trip
identity, so the update is keyed on the zero UUID instead. -/
theorem c1_confirm_leaves_requested_trip_unconfirmed :
    (GetTripsTripIDConfirm storeParis (some 1) false false
        (fun _ _ => true)).response = Response.json204 ∧
    ((GetTripsTripIDConfirm storeParis (some 1) false false
        (fun _ _ => true)).store.getTrip 1).map Trip.isConfirmed
      = some false := by
  constructor
  · rfl
  · rfl

/-- Mapping a participant list to invitation-dispatch events and reading the
targets back yields exactly one (email, trip) pair per participant. -/
theorem invitationTargets_map_dispatch (l : List Participant) (id : UUID)
    (mailOk : String → UUID → Bool) :
    invitationTargets (l.map (fun p =>
        Event.dispatchInvitation p.email id (mailOk p.email id)))
      = l.map (fun p => (p.email, id)) := by
  induction l with
  | nil => rfl
  | cons p rest ih => simp [invitationTargets, ih]

/-- C2: whenever a trip-confirmation request succeeds, the dispatched
invitation targets are exactly one (participant email, trip) pair per
participant in the set loaded for that trip — none skipped, none repeated —
for every outcome oracle of the individual mailer calls. -/
theorem c2_confirm_one_dispatch_per_participant (st : Store) (id : UUID)
    (f1 f2 : Bool) (mailOk : String → UUID → Bool)
    (hs : (GetTripsTripIDConfirm st (some id) f1 f2 mailOk).response
        = Response.json204) :
    invitationTargets (GetTripsTripIDConfirm st (some id) f1 f2 mailOk).trace
      = (st.getParticipants id).map (fun p => (p.email, id)) := by
  by_cases h1 : f1
  · simp [GetTripsTripIDConfirm, h1] at hs
  · by_cases h2 : f2
    · simp [GetTripsTripIDConfirm, h1, h2] at hs
    · simp only [GetTripsTripIDConfirm, h1, h2, Bool.false_eq_true,
        if_false, invitationTargets]
      exact invitationTargets_map_dispatch (st.getParticipants id) id mailOk

/-- Witness for C2 at a concrete store with two participants. -/
theorem c2_witness :
    invitationTargets (GetTripsTripIDConfirm storeParis (some 1) false false
        (fun _ _ => true)).trace
      = (storeParis.getParticipants 1).map (fun p => (p.email, 1)) :=
  c2_confirm_one_dispatch_per_participant storeParis 1 false false
    (fun _ _ => true) rfl

/-- C3: in every trip-confirmation request no notification dispatch precedes
the completed persistence of the confirmation flag, and when loading the
participant set or persisting the flag fails the request answers an error
and dispatches zero notifications. -/
theorem c3_no_dispatch_before_flag_persisted (st : Store)
    (tripID : Option UUID) (f1 f2 : Bool) (mailOk : String → UUID → Bool) :
    noDispatchBeforeConfirmPersist
        (GetTripsTripIDConfirm st tripID f1 f2 mailOk).trace = true ∧
    (f1 = true ∨ f2 = true →
      (∃ m, (GetTripsTripIDConfirm st tripID f1 f2 mailOk).response
          = Response.json400 m) ∧
      dispatchCount (GetTripsTripIDConfirm st tripID f1 f2 mailOk).trace
        = 0) := by
  cases tripID with
  | none => simp [GetTripsTripIDConfirm, noDispatchBeforeConfirmPersist,
      dispatchCount]
  | some id =>
    by_cases h1 : f1 <;> by_cases h2 : f2 <;>
      simp [GetTripsTripIDConfirm, noDispatchBeforeConfirmPersist,
        dispatchCount, h1, h2]

/-- Witness for C3: a failing participant load at a concrete store answers an
error and dispatches nothing. -/
theorem c3_witness :
    (∃ m, (GetTripsTripIDConfirm storeParis (some 1) true false
        (fun _ _ => true)).response = Response.json400 m) ∧
    dispatchCount (GetTripsTripIDConfirm storeParis (some 1) true false
        (fun _ _ => true)).trace = 0 :=
  (c3_no_dispatch_before_flag_persisted storeParis (some 1) true false
    (fun _ _ => true)).2 (Or.inl rfl)

/-- Flipping the confirmation flag of the participant with identity `id`
turns the row that a lookup for `id` finds into its confirmed copy. -/
theorem getParticipant_confirmParticipant (st : Store) (id : UUID)
    (q : Participant) (h : st.getParticipant id = some q) :
    (st.confirmParticipant id).getParticipant id
      = some { q with isConfirmed := true } := by
  have main : ∀ l : List Participant,
      l.find? (fun p => p.id = id) = some q →
      (l.map (fun p =>
          if p.id = id then { p with isConfirmed := true } else p)).find?
          (fun p => p.id = id)
        = some { q with isConfirmed := true } := by
    intro l
    induction l with
    | nil => intro hl; simp at hl
    | cons p rest ih =>
      intro hl
      by_cases hp : p.id = id
      · rw [List.find?_cons_of_pos _ (by simp [hp])] at hl
        have hpq := Option.some.inj hl
        subst hpq
        rw [List.map_cons, if_pos hp,
          List.find?_cons_of_pos _ (by simp [hp])]
      · rw [List.find?_cons_of_neg _ (by simp [hp])] at hl
        rw [List.map_cons, if_neg hp,
          List.find?_cons_of_neg _ (by simp [hp])]
        exact ih hl
  exact main st.participants h

/-- C4: a participant-confirmation request for a well-formed identity with
working infrastructure answers not-found when no such participant exists,
answers the conflict message and mutates nothing when the participant is
already confirmed, and otherwise persists the false→true flip and answers
204; and no path of the handler ever dispatches a notification. -/
theorem c4_participant_confirm_transitions (st : Store) (id : UUID) :
    (st.getParticipant id = none →
      PatchParticipantsParticipantIDConfirm st (some id) false false
        = ⟨Response.json400 "participante não encontrado", st, []⟩) ∧
    (∀ q, st.getParticipant id = some q → q.isConfirmed = true →
      PatchParticipantsParticipantIDConfirm st (some id) false false
        = ⟨Response.json400 "Participante já confirmado.", st, []⟩) ∧
    (∀ q, st.getParticipant id = some q → q.isConfirmed = false →
      PatchParticipantsParticipantIDConfirm st (some id) false false
        = ⟨Response.json204, st.confirmParticipant id,
            [Event.persistConfirmParticipant id]⟩ ∧
      (st.confirmParticipant id).getParticipant id
        = some { q with isConfirmed := true }) ∧
    (∀ pid f1 f2, dispatchCount
        (PatchParticipantsParticipantIDConfirm st pid f1 f2).trace = 0) := by
  refine ⟨?_, ?_, ?_, ?_⟩
  · intro h
    simp [PatchParticipantsParticipantIDConfirm, h]
  · intro q h hc
    simp [PatchParticipantsParticipantIDConfirm, h, hc]
  · intro q h hc
    refine ⟨by simp [PatchParticipantsParticipantIDConfirm, h, hc], ?_⟩
    exact getParticipant_confirmParticipant st id q h
  · intro pid f1 f2
    cases pid with
    | none => rfl
    | some i =>
      by_cases h1 : f1
      · simp [PatchParticipantsParticipantIDConfirm, h1, dispatchCount]
      · rcases hq : st.getParticipant i with _ | q
        · simp [PatchParticipantsParticipantIDConfirm, h1, hq, dispatchCount]
        · by_cases hc : q.isConfirmed <;> by_cases h2 : f2 <;>
            simp [PatchParticipantsParticipantIDConfirm, h1, h2, hq, hc,
              dispatchCount, Event.isDispatch]

/-- Witness for C4: the unconfirmed participant `10` of the concrete store is
flipped to confirmed with a 204 answer. -/
theorem c4_witness :
    (PatchParticipantsParticipantIDConfirm storeParis (some 10) false false
        = ⟨Response.json204, storeParis.confirmParticipant 10,
            [Event.persistConfirmParticipant 10]⟩ ∧
      (storeParis.confirmParticipant 10).getParticipant 10
        = some ⟨10, 1, "a@x.com", true⟩) :=
  (c4_participant_confirm_transitions storeParis 10).2.2.1
    ⟨10, 1, "a@x.com", false⟩ rfl rfl

/-- C5: a trip-creation request whose body passes validation and whose
transactional persist succeeds answers 201 with the new trip identity; the
response and the committed state are identical for every outcome of the
detached owner notification, and the trace holds exactly one owner
"trip created" dispatch. -/
theorem c5_create_trip_response_independent_of_mail (st : Store)
    (b : CreateTripRequest) (tid : UUID) (pids : List UUID) (mo mo' : Bool)
    (h : validCreateTrip b = true) :
    (PostTrips st (some b) tid pids false mo).response
      = Response.json201 (some tid) ∧
    (PostTrips st (some b) tid pids false mo).response
      = (PostTrips st (some b) tid pids false mo').response ∧
    (PostTrips st (some b) tid pids false mo).store
      = (PostTrips st (some b) tid pids false mo').store ∧
    (PostTrips st (some b) tid pids false mo).store
      = st.createTripTx tid pids b ∧
    (PostTrips st (some b) tid pids false mo).trace.filter Event.isDispatch
      = [Event.dispatchConfirmTripEmailToOwner tid mo] := by
  simp [PostTrips, h, Event.isDispatch]

/-- A concrete valid trip-creation body. -/
def bodyParis : CreateTripRequest :=
  ⟨"Paris", "Ana", "a@x.com", 0, 5, ["b@x.com"]⟩

/-- Witness for C5 at a concrete valid body, comparing a failed and a
successful detached notification. -/
theorem c5_witness :
    (PostTrips storeParis (some bodyParis) 2 [20, 21] false false).response
      = Response.json201 (some 2) ∧
    (PostTrips storeParis (some bodyParis) 2 [20, 21] false false).response
      = (PostTrips storeParis (some bodyParis) 2 [20, 21] false true).response ∧
    (PostTrips storeParis (some bodyParis) 2 [20, 21] false false).store
      = (PostTrips storeParis (some bodyParis) 2 [20, 21] false true).store ∧
    (PostTrips storeParis (some bodyParis) 2 [20, 21] false false).store
      = storeParis.createTripTx 2 [20, 21] bodyParis ∧
    (PostTrips storeParis (some bodyParis) 2 [20, 21] false
        false).trace.filter Event.isDispatch
      = [Event.dispatchConfirmTripEmailToOwner 2 false] :=
  c5_create_trip_response_independent_of_mail storeParis bodyParis 2 [20, 21]
    false true (by decide)

/-- C6: an invitation request with a well-formed email and a well-formed trip
identity whose insert succeeds appends exactly one unconfirmed participant
row for that trip and email, and its trace is that persisted insert followed
by exactly one invitation dispatch to that email for that trip. -/
theorem c6_invite_one_row_one_dispatch (st : Store) (id : UUID)
    (b : InviteParticipantRequest) (pid : UUID) (mo : Bool)
    (h : emailWellFormed b.email = true) :
    PostTripsTripIDInvites st (some id) (some b) pid false mo
      = ⟨Response.json201 none,
          { st with participants := st.participants ++ [⟨pid, id, b.email, false⟩] },
          [Event.persistInsertParticipant id b.email,
           Event.dispatchInvitation b.email id mo]⟩ := by
  simp [PostTripsTripIDInvites, h, Store.inviteParticipantsToTrip]

/-- Witness for C6 at a concrete well-formed invitation. -/
theorem c6_witness :
    PostTripsTripIDInvites storeParis (some 1) (some ⟨"c@x.com"⟩) 12 false true
      = ⟨Response.json201 none,
          { storeParis with
            participants := storeParis.participants ++ [⟨12, 1, "c@x.com", false⟩] },
          [Event.persistInsertParticipant 1 "c@x.com",
           Event.dispatchInvitation "c@x.com" 1 true]⟩ :=
  c6_invite_one_row_one_dispatch storeParis 1 ⟨"c@x.com"⟩ 12 true (by decide)

/-- C7: a trip-creation request whose decoded body violates the validation
constraints answers the validation error, leaves the store untouched and
performs no persistence or dispatch at all, for every persistence-failure
and mailer oracle. -/
theorem c7_invalid_create_trip_rejected (st : Store) (b : CreateTripRequest)
    (tid : UUID) (pids : List UUID) (cf mo : Bool)
    (h : validCreateTrip b = false) :
    PostTrips st (some b) tid pids cf mo
      = ⟨Response.json400 "Invalid input", st, []⟩ := by
  simp [PostTrips, h]

/-- Witness for C7: an empty destination is rejected with no persistence. -/
theorem c7_witness :
    PostTrips storeParis (some ⟨"", "Ana", "a@x.com", 0, 5, []⟩) 2 [20] false
        true
      = ⟨Response.json400 "Invalid input", storeParis, []⟩ :=
  c7_invalid_create_trip_rejected storeParis ⟨"", "Ana", "a@x.com", 0, 5, []⟩
    2 [20] false true (by decide)

/-- C8: an invitation request with a malformed email answers the validation
error, mutates nothing and dispatches nothing, for every failure and mailer
oracle. -/
theorem c8_malformed_invite_email_rejected (st : Store) (id : UUID)
    (b : InviteParticipantRequest) (pid : UUID) (fl mo : Bool)
    (h : emailWellFormed b.email = false) :
    PostTripsTripIDInvites st (some id) (some b) pid fl mo
      = ⟨Response.json400 "Invalid input", st, []⟩ := by
  simp [PostTripsTripIDInvites, h]

/-- Witness for C8: an address without a domain is rejected. -/
theorem c8_witness :
    PostTripsTripIDInvites storeParis (some 1) (some ⟨"c@"⟩) 12 false true
      = ⟨Response.json400 "Invalid input", storeParis, []⟩ :=
  c8_malformed_invite_email_rejected storeParis 1 ⟨"c@"⟩ 12 false true
    (by decide)

/-- C9: over a store whose trip identities are distinct (the primary key of
the `trips` table), a trip that is confirmed stays confirmed across every
trip-confirmation request (the handler only ever writes `true`) and across
every trip-update request (the handler writes back the flag value it just
read for that trip). -/
theorem c9_trip_flag_never_reversed (st : Store)
    (hNodup : (st.trips.map Trip.id).Nodup) :
    (∀ tripID f1 f2 mailOk t t',
      t ∈ st.trips → t.isConfirmed = true →
      t' ∈ (GetTripsTripIDConfirm st tripID f1 f2 mailOk).store.trips →
      t'.id = t.id → t'.isConfirmed = true) ∧
    (∀ tripID body f3 f4 t t',
      t ∈ st.trips → t.isConfirmed = true →
      t' ∈ (PutTripsTripID st tripID body f3 f4).store.trips →
      t'.id = t.id → t'.isConfirmed = true) := by
  have inj := List.inj_on_of_nodup_map hNodup
  have base : ∀ t t', t ∈ st.trips → t.isConfirmed = true →
      t' ∈ st.trips → t'.id = t.id → t'.isConfirmed = true := by
    intro t t' ht htc ht' hid
    rw [inj ht' ht hid]
    exact htc
  constructor
  · intro tripID f1 f2 mailOk t t' ht htc ht' hid
    cases tripID with
    | none => exact base t t' ht htc ht' hid
    | some i =>
      by_cases h1 : f1
      · simp only [GetTripsTripIDConfirm, h1, if_true] at ht'
        exact base t t' ht htc ht' hid
      · by_cases h2 : f2
        · simp only [GetTripsTripIDConfirm, h1, Bool.false_eq_true, if_false,
            h2, if_true] at ht'
          exact base t t' ht htc ht' hid
        · simp only [GetTripsTripIDConfirm, h1, h2, Bool.false_eq_true,
            if_false, Store.confirmTrip] at ht'
          rcases List.mem_map.1 ht' with ⟨s, hs, hfs⟩
          by_cases hsid : s.id = nilUUID
          · rw [if_pos hsid] at hfs
            rw [← hfs]
          · rw [if_neg hsid] at hfs
            subst hfs
            exact base t s ht htc hs hid
  · intro tripID body f3 f4 t t' ht htc ht' hid
    cases tripID with
    | none => exact base t t' ht htc ht' hid
    | some i =>
      by_cases h3 : f3
      · simp only [PutTripsTripID, h3, if_true] at ht'
        exact base t t' ht htc ht' hid
      · rcases hg : st.getTrip i with _ | trip
        · simp only [PutTripsTripID, h3, Bool.false_eq_true, if_false,
            hg] at ht'
          exact base t t' ht htc ht' hid
        · have htrip : trip ∈ st.trips := List.mem_of_find?_eq_some hg
          have htripid : trip.id = i := by
            have := List.find?_some hg
            simpa using this
          cases body with
          | none =>
            simp only [PutTripsTripID, h3, Bool.false_eq_true, if_false,
              hg] at ht'
            exact base t t' ht htc ht' hid
          | some b =>
            by_cases hv : validUpdateTrip b
            · by_cases h4 : f4
              · simp only [PutTripsTripID, h3, Bool.false_eq_true, if_false,
                  hg, hv, Bool.not_true, h4, if_true] at ht'
                exact base t t' ht htc ht' hid
              · simp only [PutTripsTripID, h3, h4, Bool.false_eq_true,
                  if_false, hg, hv, Bool.not_true, Store.updateTrip] at ht'
                rcases List.mem_map.1 ht' with ⟨s, hs, hfs⟩
                by_cases hsid : s.id = i
                · rw [if_pos hsid] at hfs
                  have htid : t.id = i := by
                    rw [← hid, ← hfs]
                    exact hsid
                  have : trip = t := inj htrip ht (by rw [htripid, htid])
                  rw [← hfs]
                  simpa [this] using htc
                · rw [if_neg hsid] at hfs
                  subst hfs
                  exact base t s ht htc hs hid
            · simp only [PutTripsTripID, h3, Bool.false_eq_true, if_false,
                hg, hv, Bool.not_false, if_true] at ht'
              exact base t t' ht htc ht' hid

/-- Witness for C9: updating the Paris trip of a two-trip store keeps the
other, already-confirmed trip confirmed. -/
theorem c9_witness :
    ((List.map Trip.id storeRome.trips).Nodup ∧
      Trip.isConfirmed ⟨2, "Rome", "r@x.com", "Rui", true, 1, 3⟩ = true) :=
  ⟨by decide,
    (c9_trip_flag_never_reversed storeRome (by decide)).2 (some 1)
      (some ⟨"Lyon", 0, 9⟩) false false tripRome
      ⟨2, "Rome", "r@x.com", "Rui", true, 1, 3⟩ (by decide) rfl (by decide)
      rfl⟩

/-- C10: a trip-confirmation request for any well-formed identity — one
matching no stored trip included — never answers not-found: with working
infrastructure it answers 204, and when the loaded participant set is empty
(as for an absent trip) it dispatches zero notifications; with failing
infrastructure it answers the generic internal message, not not-found. -/
theorem c10_confirm_never_not_found (st : Store) (id : UUID) (f1 f2 : Bool)
    (mailOk : String → UUID → Bool) :
    ((GetTripsTripIDConfirm st (some id) f1 f2 mailOk).response
        = Response.json204 ∨
      (GetTripsTripIDConfirm st (some id) f1 f2 mailOk).response
        = Response.json400 "algo deu errado, tente novamente") ∧
    (f1 = false → f2 = false →
      (GetTripsTripIDConfirm st (some id) f1 f2 mailOk).response
          = Response.json204 ∧
      (st.getParticipants id = [] →
        dispatchCount
          (GetTripsTripIDConfirm st (some id) f1 f2 mailOk).trace = 0)) := by
  by_cases h1 : f1 <;> by_cases h2 : f2 <;>
    simp [GetTripsTripIDConfirm, h1, h2, dispatchCount]
  intro hp
  simp [hp, Event.isDispatch]

/-- Witness for C10: confirming an identity absent from an empty store
answers 204 and dispatches nothing. -/
theorem c10_witness :
    (GetTripsTripIDConfirm ⟨[], []⟩ (some 7) false false
        (fun _ _ => true)).response = Response.json204 ∧
    dispatchCount (GetTripsTripIDConfirm ⟨[], []⟩ (some 7) false false
        (fun _ _ => true)).trace = 0 := by
  have h := (c10_confirm_never_not_found ⟨[], []⟩ 7 false false
    (fun _ _ => true)).2 rfl rfl
  exact ⟨h.1, h.2 rfl⟩

end TravelApi
